import Mathlib

/-!
Shallow embedding of the linky-backend user/authentication core: value objects
(Email, UserName, Password), entities (User, UserCredentials), the in-memory
transaction manager, the in-memory repositories, the auth and user domain
services, and the register/login/change-password use cases.  JavaScript `Map`
objects are modelled as insertion-ordered association lists, `Date` values as
integer milliseconds, thrown exceptions as `Except`, and the asynchronous
single-threaded flow as sequential state passing.  The 100 ms deferred map
cleanup scheduled by `setTimeout` in the transaction manager is modelled as
not yet elapsed: timer callbacks never run inside the synchronous call
sequences the claims are about.
-/

set_option autoImplicit false

deriving instance DecidableEq for Except

namespace Linky

/-- JavaScript `String.prototype.trim`: strip leading and trailing
whitespace. -/
def jsTrim (s : String) : String :=
  ⟨((s.toList.dropWhile Char.isWhitespace).reverse.dropWhile
      Char.isWhitespace).reverse⟩

/-- JavaScript `String.prototype.toLowerCase`, on the ASCII range the
repository exercises. -/
def jsToLower (s : String) : String := ⟨s.toList.map Char.toLower⟩

/-- JavaScript `String.prototype.toUpperCase`, on the ASCII range the
repository exercises. -/
def jsToUpper (s : String) : String := ⟨s.toList.map Char.toUpper⟩

/-- JavaScript `String.prototype.split` with a single-character separator. -/
def splitCharAux (sep : Char) : List Char → List Char → List (List Char)
  | [], acc => [acc.reverse]
  | c :: rest, acc =>
    if c = sep then acc.reverse :: splitCharAux sep rest []
    else splitCharAux sep rest (c :: acc)

def jsSplitChar (s : String) (sep : Char) : List String :=
  (splitCharAux sep s.toList []).map fun l => ⟨l⟩

/-- Insertion-ordered map lookup: first entry with the given key, as
JavaScript `Map.get` (keys are unique by construction of `mapSet`). -/
def mapGet {α : Type} : List (String × α) → String → Option α
  | [], _ => none
  | (k', v) :: rest, k => if k' = k then some v else mapGet rest k

/-- JavaScript `Map.set`: replace in place if the key exists, else append at
the end (JS maps iterate in insertion order). -/
def mapSet {α : Type} : List (String × α) → String → α → List (String × α)
  | [], k, v => [(k, v)]
  | (k', v') :: rest, k, v =>
    if k' = k then (k, v) :: rest else (k', v') :: mapSet rest k v

theorem mapGet_mapSet_self {α : Type} (m : List (String × α)) (k : String) (v : α) :
    mapGet (mapSet m k v) k = some v := by
  induction m with
  | nil => simp [mapGet, mapSet]
  | cons hd tl ih =>
    by_cases h : hd.1 = k
    · simp [mapSet, mapGet, h]
    · simp [mapSet, mapGet, h, ih]

theorem mapGet_mapSet_ne {α : Type} (m : List (String × α)) (k k' : String) (v : α)
    (h : k ≠ k') : mapGet (mapSet m k v) k' = mapGet m k' := by
  induction m with
  | nil => simp [mapGet, mapSet, h]
  | cons hd tl ih =>
    by_cases hh : hd.1 = k
    · simp [mapSet, mapGet, hh, h]
    · simp [mapSet, mapGet, hh, ih]

/-! ### Model of the external bcryptjs library

`bcryptjs` is an external dependency (not part of this repository), so it is
idealized: `hashSync` is an injective encoding of the plaintext together with
the cost factor, and `compareSync` re-derives the hash from the plaintext and
the recorded cost and compares, exactly the shape of the real algorithm
(derive from stored parameters, never hash with a fresh salt).  Real bcrypt
truncates plaintexts at 72 bytes; the ideal model does not. -/

def bcryptHashSync (plain : String) (cost : Nat) : String :=
  "bcrypt." ++ toString cost ++ "." ++ plain

/-- Ideal `bcrypt.compareSync plain hashed`: the repository only ever stores
cost-12 hashes, so the model re-derives with cost 12. -/
def bcryptCompareSync (plain hashed : String) : Bool :=
  hashed == bcryptHashSync plain 12

theorem bcryptHashSync_inj (p q : String) (c : Nat)
    (h : bcryptHashSync p c = bcryptHashSync q c) : p = q := by
  have hd : ("bcrypt." ++ toString c ++ ".").data ++ p.data
      = ("bcrypt." ++ toString c ++ ".").data ++ q.data := by
    have h1 := congrArg String.data h
    simpa [bcryptHashSync, String.data_append] using h1
  have : p.data = q.data := List.append_cancel_left hd
  cases p; cases q; exact congrArg String.mk this

theorem bcryptCompareSync_hash (p w : String) :
    bcryptCompareSync w (bcryptHashSync p 12) = (p == w) := by
  by_cases h : p = w
  · simp [bcryptCompareSync, h]
  · have : bcryptHashSync p 12 ≠ bcryptHashSync w 12 := by
      intro hc
      exact h (bcryptHashSync_inj p w 12 hc)
    simp [bcryptCompareSync, this, h]

/-! ### Value object: Password (auth/domain/value-objects/password.ts) -/

structure Password where
  hashedValue : String
  isHashed : Bool
  deriving DecidableEq, Repr

namespace Password

def hasUpperCase (s : String) : Bool := s.toList.any fun c => c.val ≥ 65 && c.val ≤ 90
def hasLowerCase (s : String) : Bool := s.toList.any fun c => c.val ≥ 97 && c.val ≤ 122
def hasNumbers (s : String) : Bool := s.toList.any fun c => c.val ≥ 48 && c.val ≤ 57

/-- `Password.create`: policy checks in source order, then hash with cost 12. -/
def create (plainPassword : String) : Except String Password :=
  if plainPassword = "" ∨ (jsTrim plainPassword).length = 0 then
    .error "Password cannot be empty"
  else if plainPassword.length < 8 then
    .error "Password must be at least 8 characters long"
  else if plainPassword.length > 128 then
    .error "Password cannot exceed 128 characters"
  else if !(hasUpperCase plainPassword && hasLowerCase plainPassword
      && hasNumbers plainPassword) then
    .error "Password must contain at least one uppercase letter, one lowercase letter, and one number"
  else
    .ok ⟨bcryptHashSync plainPassword 12, true⟩

def fromHashed (hashedPassword : String) : Except String Password :=
  if hashedPassword = "" ∨ (jsTrim hashedPassword).length = 0 then
    .error "Hashed password cannot be empty"
  else
    .ok ⟨hashedPassword, true⟩

def compare (p : Password) (plainPassword : String) : Bool :=
  bcryptCompareSync plainPassword p.hashedValue

def getHashedValue (p : Password) : String := p.hashedValue

end Password

/-! ### Value object: Email (users/domain/value-objects/email.ts) -/

structure Email where
  value : String
  deriving DecidableEq, Repr

namespace Email

/-- The anchored JS regex `[^\s@]+@[^\s@]+\.[^\s@]+` matches iff the string
has no whitespace, exactly one at-sign, a nonempty part before it, and a dot
strictly inside the part after it (neither its first nor last character). -/
def emailRegexTest (s : String) : Bool :=
  let cs := s.toList
  let before := cs.takeWhile fun c => c ≠ '@'
  let after := (cs.dropWhile fun c => c ≠ '@').drop 1
  cs.all (fun c => !c.isWhitespace) &&
  cs.count '@' == 1 &&
  !before.isEmpty &&
  ((after.drop 1).dropLast.contains '.')

def containsSeq (pat : List Char) : List Char → Bool
  | [] => pat.isEmpty
  | c :: rest => pat.isPrefixOf (c :: rest) || containsSeq pat rest

/-- `Email.validate` (the constructor body): checks in source order. -/
def validate (value : String) : Except String Unit :=
  if value = "" ∨ (jsTrim value).length = 0 then
    .error "Email cannot be empty"
  else if value.length > 254 then
    .error "Email cannot be longer than 254 characters"
  else if !emailRegexTest value then
    .error "Email must be in a valid format"
  else if containsSeq "..".toList value.toList
      || containsSeq "@@".toList value.toList then
    .error "Email contains invalid characters"
  else
    .ok ()

/-- `new Email(value)` as a fallible constructor. -/
def create (value : String) : Except String Email :=
  (validate value).map fun _ => ⟨value⟩

def getValue (e : Email) : String := jsToLower e.value

end Email

/-! ### Value object: UserName (users/domain/value-objects/user-name.ts) -/

structure UserName where
  value : String
  deriving DecidableEq, Repr

namespace UserName

/-- Character class of the JS regex `[a-zA-ZÀ-ÿ\s\-']`: ASCII letters,
U+00C0–U+00FF, whitespace, hyphen, apostrophe. -/
def nameCharOk (c : Char) : Bool :=
  (c.val ≥ 97 && c.val ≤ 122) || (c.val ≥ 65 && c.val ≤ 90) ||
  (c.val ≥ 0xC0 && c.val ≤ 0xFF) || c.isWhitespace ||
  c = '-' || c = Char.ofNat 39

/-- `trimmedValue.includes("  ")`: two consecutive space characters. -/
def hasConsecutiveSpaces : List Char → Bool
  | a :: b :: rest => (a = ' ' && b = ' ') || hasConsecutiveSpaces (b :: rest)
  | _ => false

/-- `UserName.validate` (called from the constructor): checks in source
order; all but the emptiness check run on the trimmed value. -/
def validate (value : String) : Except String Unit :=
  if value = "" ∨ (jsTrim value).length = 0 then
    .error "User name cannot be empty"
  else if (jsTrim value).length < 2 then
    .error "User name must be at least 2 characters long"
  else if (jsTrim value).length > 50 then
    .error "User name cannot be longer than 50 characters"
  else if !((jsTrim value).toList.all nameCharOk && !(jsTrim value).toList.isEmpty) then
    .error "User name can only contain letters, spaces, hyphens, and apostrophes"
  else if hasConsecutiveSpaces (jsTrim value).toList then
    .error "User name cannot contain consecutive spaces"
  else
    .ok ()

/-- `new UserName(value)` as a fallible constructor. -/
def create (value : String) : Except String UserName :=
  (validate value).map fun _ => ⟨value⟩

def getValue (n : UserName) : String := jsTrim n.value

end UserName

/-! ### UserRole and UserPlan (users/domain/value-objects) -/

inductive UserRoleEnum where
  | ADMIN
  | USER
  deriving DecidableEq, Repr

def UserRoleEnum.toStr : UserRoleEnum → String
  | .ADMIN => "ADMIN"
  | .USER => "USER"

namespace UserRole

/-- `UserRole.create(role)`: uppercase the input, then validate membership. -/
def create (role : String) : Except String UserRoleEnum :=
  if (jsToUpper role) = "ADMIN" then .ok .ADMIN
  else if (jsToUpper role) = "USER" then .ok .USER
  else .error ("Invalid user role: " ++ (jsToUpper role) ++ ". Must be one of: ADMIN, USER")

end UserRole

inductive UserPlanEnum where
  | STANDARD
  | PREMIUM
  deriving DecidableEq, Repr

def UserPlanEnum.toStr : UserPlanEnum → String
  | .STANDARD => "STANDARD"
  | .PREMIUM => "PREMIUM"

namespace UserPlan

/-- `UserPlan.create(plan)`: uppercase the input, then validate membership. -/
def create (plan : String) : Except String UserPlanEnum :=
  if (jsToUpper plan) = "STANDARD" then .ok .STANDARD
  else if (jsToUpper plan) = "PREMIUM" then .ok .PREMIUM
  else .error ("Invalid user plan: " ++ (jsToUpper plan) ++ ". Must be one of: STANDARD, PREMIUM")

end UserPlan

/-! ### Entity: User (users/domain/entities/user.ts)

`Date` values are integer milliseconds since the epoch; `UserId` values are
carried as their underlying strings. -/

structure User where
  id : String
  email : Email
  name : UserName
  createdAt : Int
  profileImage : Option String
  isActive : Bool
  isVerified : Bool
  role : UserRoleEnum
  plan : UserPlanEnum
  deriving DecidableEq, Repr

namespace User

/-- `new User(id, email, name, createdAt)` relying on the constructor
default parameters: `profileImage = null`, `isActive = true`,
`isVerified = true`, `role = UserRole.user()`, `plan = UserPlan.standard()`. -/
def mkDefault (id : String) (email : Email) (name : UserName) (createdAt : Int) : User :=
  ⟨id, email, name, createdAt, none, true, true, .USER, .STANDARD⟩

def updateProfile (u : User) (newName : UserName) : User :=
  ⟨u.id, u.email, newName, u.createdAt, u.profileImage, u.isActive, u.isVerified, u.role, u.plan⟩

/-- `canBeDeleted()`: `createdAt < new Date(Date.now() - 24*60*60*1000)`,
a strict comparison against the cutoff 24 hours before `now`. -/
def canBeDeleted (u : User) (now : Int) : Bool :=
  u.createdAt < now - 24 * 60 * 60 * 1000

end User

/-! ### Entity: UserCredentials (auth/domain/entities/user-credentials.ts) -/

structure UserCredentials where
  email : Email
  password : Password
  userId : String
  isActive : Bool
  lastLoginAt : Option Int
  createdAt : Int
  updatedAt : Int
  deriving DecidableEq, Repr

namespace UserCredentials

/-- `UserCredentials.create(email, password, userId)`: constructor defaults
`isActive = true`, `lastLoginAt = undefined`, `createdAt = updatedAt = new Date()`. -/
def create (email : Email) (password : Password) (userId : String) (now : Int) :
    UserCredentials :=
  ⟨email, password, userId, true, none, now, now⟩

def isUserActive (c : UserCredentials) : Bool := c.isActive

def updatePassword (c : UserCredentials) (newPassword : Password) (now : Int) :
    UserCredentials :=
  ⟨c.email, newPassword, c.userId, c.isActive, c.lastLoginAt, c.createdAt, now⟩

def updateLastLogin (c : UserCredentials) (now : Int) : UserCredentials :=
  ⟨c.email, c.password, c.userId, c.isActive, some now, c.createdAt, now⟩

end UserCredentials

/-! ### InMemoryTransactionManager (shared/infrastructure/transaction/transaction-manager.ts)

Each handle returned by `beginTransaction` carries mutable `isCommitted` /
`isRolledBack` flags and is itself the value stored in the
`activeTransactions` map, so the flags live in the map entry keyed by the
transaction id.  The id (built in the source from `Date.now()` and
`Math.random()`) is an explicit parameter. -/

structure TxRecord where
  isCommitted : Bool
  isRolledBack : Bool
  deriving DecidableEq, Repr

/-- A transaction handle; identity is `getId()`. -/
structure Tx where
  id : String
  deriving DecidableEq, Repr

structure TMState where
  activeTransactions : List (String × TxRecord)
  deriving DecidableEq, Repr

namespace InMemoryTransactionManager

def txNotFoundMsg (id : String) : String :=
  "Transaction " ++ id ++ " not found"

def txAlreadyCompletedMsg (id : String) : String :=
  "Transaction " ++ id ++ " already completed"

/-- `beginTransaction()`: register a fresh handle with both flags false. -/
def beginTransaction (s : TMState) (transactionId : String) : TMState × Tx :=
  (⟨mapSet s.activeTransactions transactionId ⟨false, false⟩⟩, ⟨transactionId⟩)

/-- `commitTransaction(tx)`: not-found check, then terminal-state check, then
the handle commit sets `isCommitted`. -/
def commitTransaction (s : TMState) (t : Tx) : Except String TMState :=
  match mapGet s.activeTransactions t.id with
  | none => .error (txNotFoundMsg t.id)
  | some r =>
    if r.isCommitted || r.isRolledBack then
      .error (txAlreadyCompletedMsg t.id)
    else
      .ok ⟨mapSet s.activeTransactions t.id ⟨true, r.isRolledBack⟩⟩

/-- `rollbackTransaction(tx)`: symmetric to commit. -/
def rollbackTransaction (s : TMState) (t : Tx) : Except String TMState :=
  match mapGet s.activeTransactions t.id with
  | none => .error (txNotFoundMsg t.id)
  | some r =>
    if r.isCommitted || r.isRolledBack then
      .error (txAlreadyCompletedMsg t.id)
    else
      .ok ⟨mapSet s.activeTransactions t.id ⟨r.isCommitted, true⟩⟩

/-- The `isCommitted` flag the use cases read from the handle before
attempting a best-effort rollback. -/
def isCommitted (s : TMState) (t : Tx) : Bool :=
  match mapGet s.activeTransactions t.id with
  | none => false
  | some r => r.isCommitted

end InMemoryTransactionManager

/-! ### InMemoryUserRepository (users/infrastructure/repositories) -/

structure UserStore where
  users : List (String × User)
  deriving DecidableEq, Repr

namespace InMemoryUserRepository

/-- `findById`: transactions are ignored for in-memory storage. -/
def findById (st : UserStore) (id : String) (_tx : Option Tx) : Option User :=
  mapGet st.users id

/-- `findByEmail`: first user (in insertion order) with the given
normalized email. -/
def findByEmail (st : UserStore) (email : Email) (_tx : Option Tx) : Option User :=
  (st.users.find? fun kv => kv.2.email.getValue = email.getValue).map fun kv => kv.2

/-- `save`: write straight through to the live map, ignoring the
transaction handle. -/
def save (st : UserStore) (user : User) (_tx : Option Tx) : UserStore :=
  ⟨mapSet st.users user.id user⟩

end InMemoryUserRepository

/-! ### InMemoryUserCredentialsRepository (auth infrastructure) -/

structure CredStore where
  credentials : List (String × UserCredentials)
  emailToUserId : List (String × String)
  deriving DecidableEq, Repr

namespace InMemoryUserCredentialsRepository

/-- `save`: write both maps straight through, ignoring the transaction
handle; returns the credentials unchanged. -/
def save (st : CredStore) (c : UserCredentials) (_tx : Option Tx) :
    CredStore × UserCredentials :=
  (⟨mapSet st.credentials c.userId c,
    mapSet st.emailToUserId c.email.getValue c.userId⟩, c)

/-- `findByEmail`: indirect lookup via the email map; an absent (or falsy,
i.e. empty) user id yields null. -/
def findByEmail (st : CredStore) (email : Email) (_tx : Option Tx) :
    Option UserCredentials :=
  match mapGet st.emailToUserId email.getValue with
  | none => none
  | some userId =>
    if userId = "" then none
    else mapGet st.credentials userId

def findByUserId (st : CredStore) (userId : String) (_tx : Option Tx) :
    Option UserCredentials :=
  mapGet st.credentials userId

end InMemoryUserCredentialsRepository

/-! ### AuthDomainService (auth/domain/services/auth-domain-service.ts)

Domain exceptions are the inductive `AuthError`; `message` mirrors each
exception class's message. -/

inductive AuthError where
  | registerUserExists (email : String)
  | loginInvalidCredentials
  | loginUserInactive
  | userNotFound
  | changePasswordInvalidCurrent
  deriving DecidableEq, Repr

def AuthError.message : AuthError → String
  | .registerUserExists email => "User with email " ++ email ++ " already exists"
  | .loginInvalidCredentials => "Invalid email or password"
  | .loginUserInactive => "User account is deactivated"
  | .userNotFound => "User not found"
  | .changePasswordInvalidCurrent => "Current password is incorrect"

namespace AuthDomainService

open InMemoryUserCredentialsRepository

/-- `registerUser(email, password, userId, tx?)` over the in-memory
credentials repository. -/
def registerUser (st : CredStore) (email : Email) (password : Password)
    (userId : String) (now : Int) (tx : Option Tx) :
    Except AuthError (CredStore × UserCredentials) :=
  match findByEmail st email tx with
  | some _ => .error (.registerUserExists email.getValue)
  | none =>
    let userCredentials := UserCredentials.create email password userId now
    .ok (save st userCredentials tx)

/-- `authenticateUser(email, plainPassword, tx?)`: not-found, inactive and
wrong-password checks in source order; on success persist the record with a
refreshed last login before returning it. -/
def authenticateUser (st : CredStore) (email : Email) (plainPassword : String)
    (now : Int) (tx : Option Tx) :
    Except AuthError (CredStore × UserCredentials) :=
  match findByEmail st email tx with
  | none => .error .loginInvalidCredentials
  | some userCredentials =>
    if !userCredentials.isUserActive then
      .error .loginUserInactive
    else if !(userCredentials.password.compare plainPassword) then
      .error .loginInvalidCredentials
    else
      let updatedCredentials := userCredentials.updateLastLogin now
      ((save st updatedCredentials tx).1, updatedCredentials) |> .ok

/-- `changePassword(userId, currentPlainPassword, newPassword, tx?)`. -/
def changePassword (st : CredStore) (userId : String)
    (currentPlainPassword : String) (newPassword : Password) (now : Int)
    (tx : Option Tx) : Except AuthError (CredStore × UserCredentials) :=
  match findByUserId st userId tx with
  | none => .error .userNotFound
  | some userCredentials =>
    if !(userCredentials.password.compare currentPlainPassword) then
      .error .changePasswordInvalidCurrent
    else
      .ok (save st (userCredentials.updatePassword newPassword now) tx)

end AuthDomainService

/-! ### UserDomainService (users/domain/services) -/

inductive UserError where
  | alreadyExists (email : String)
  | notFound (idOrEmail : String)
  | cannotBeDeleted (id : String)
  deriving DecidableEq, Repr

namespace UserDomainService

open InMemoryUserRepository

/-- `createUser(email, name)`: uniqueness check, then
`new User(UserId.generate(), email, name, new Date())` — the constructor
defaults supply profile image, flags, role and plan — then save.  The
generated id and the clock are explicit parameters. -/
def createUser (st : UserStore) (email : Email) (name : UserName)
    (newId : String) (now : Int) : Except UserError (UserStore × User) :=
  match findByEmail st email none with
  | some _ => .error (.alreadyExists email.getValue)
  | none =>
    let user := User.mkDefault newId email name now
    .ok (save st user none, user)

/-- `deleteUser(userId)`: not-found check, then the 24-hour rule. -/
def deleteUser (st : UserStore) (userId : String) (now : Int) :
    Except UserError UserStore :=
  match findById st userId none with
  | none => .error (.notFound userId)
  | some user =>
    if !user.canBeDeleted now then .error (.cannotBeDeleted userId)
    else .ok ⟨st.users.filter fun kv => kv.1 ≠ userId⟩

end UserDomainService

/-! ### JwtToken (auth/domain/value-objects/jwt-token.ts) -/

structure JwtToken where
  value : String
  deriving DecidableEq, Repr

namespace JwtToken

def create (token : String) : Except String JwtToken :=
  if token = "" ∨ (jsTrim token).length = 0 then
    .error "JWT token cannot be empty"
  else if (jsSplitChar token (Char.ofNat 46)).length ≠ 3 then
    .error "Invalid JWT token format"
  else
    .ok ⟨token⟩

end JwtToken

/-! ### Application layer: results and use cases

`AuthResult<T>` is `{success: true, data, message}` or
`{success: false, error, errorCode, ...}` (the `details` and `timestamp`
fields carry no information the claims are about and are omitted).  Because
the event loop is single-threaded, one use-case invocation is a function
from the whole system state (user store, credentials store, transaction
manager state) to a result and a new system state; the generated uuid,
transaction id, clock and the external `jwt.sign` are explicit parameters. -/

structure SysState where
  users : UserStore
  creds : CredStore
  tm : TMState
  deriving DecidableEq, Repr

inductive AuthRes (α : Type) where
  | success (data : α) (message : String)
  | error (error : String) (errorCode : String)
  deriving DecidableEq, Repr

def AuthRes.errorCode {α : Type} : AuthRes α → Option String
  | .success _ _ => none
  | .error _ code => some code

/-- The catch-block pattern shared by the use cases: attempt a rollback only
when the handle's `isCommitted` flag is unset, and swallow (log) any
rollback failure. -/
def bestEffortRollback (tm : TMState) (t : Tx) : TMState :=
  if !(InMemoryTransactionManager.isCommitted tm t) then
    match InMemoryTransactionManager.rollbackTransaction tm t with
    | .ok tm1 => tm1
    | .error _ => tm
  else tm

/-! #### RegisterUserUseCase -/

structure RegisterUserCommand where
  email : String
  password : String
  name : String
  role : Option String
  plan : Option String
  profileImage : Option String
  deriving DecidableEq, Repr

structure RegisterUserCommandResult where
  userId : String
  email : String
  name : String
  profileImage : Option String
  isActive : Bool
  isVerified : Bool
  role : String
  plan : String
  deriving DecidableEq, Repr

namespace RegisterUserUseCase

open InMemoryTransactionManager

/-- `command.role ? UserRole.create(command.role) : UserRole.user()` — the
empty string is falsy, so it also selects the default. -/
def roleFromCommand : Option String → Except String UserRoleEnum
  | none => .ok .USER
  | some r => if r = "" then .ok .USER else UserRole.create r

def planFromCommand : Option String → Except String UserPlanEnum
  | none => .ok .STANDARD
  | some p => if p = "" then .ok .STANDARD else UserPlan.create p

/-- The `new User(...)` call inside `RegisterUserUseCase.execute`: every
argument is passed explicitly, in particular `isActive = true` and
`isVerified = false` (the latter overriding the constructor default). -/
def buildUser (userId : String) (email : Email) (name : UserName) (now : Int)
    (profileImage : Option String) (role : UserRoleEnum) (plan : UserPlanEnum) :
    User :=
  ⟨userId, email, name, now, profileImage, true, false, role, plan⟩

/-- `RegisterUserUseCase.execute(command)`: falsy-input check, value-object
construction with per-field error codes, then credentials registration and
user persistence inside one transaction. -/
def execute (st : SysState) (command : RegisterUserCommand)
    (userId transactionId : String) (now : Int) :
    AuthRes RegisterUserCommandResult × SysState :=
  if command.email = "" || command.password = "" || command.name = "" then
    (.error "Email, password, and name are required" "VALIDATION_ERROR", st)
  else
    let profileImage : Option String :=
      match command.profileImage with
      | some s => if s = "" then none else some s
      | none => none
    match Email.create command.email with
    | .error msg => (.error msg "INVALID_EMAIL", st)
    | .ok email =>
    match Password.create command.password with
    | .error msg => (.error msg "INVALID_PASSWORD", st)
    | .ok password =>
    match UserName.create command.name with
    | .error msg => (.error msg "INVALID_NAME", st)
    | .ok name =>
    match roleFromCommand command.role with
    | .error msg => (.error msg "INVALID_ROLE", st)
    | .ok role =>
    match planFromCommand command.plan with
    | .error msg => (.error msg "INVALID_PLAN", st)
    | .ok plan =>
      let (tm1, transaction) := beginTransaction st.tm transactionId
      match AuthDomainService.registerUser st.creds email password userId now
          (some transaction) with
      | .error e =>
        (.error e.message "REGISTRATION_ERROR",
          ⟨st.users, st.creds, bestEffortRollback tm1 transaction⟩)
      | .ok (creds1, _savedCredentials) =>
        let user : User := buildUser userId email name now profileImage role plan
        let users1 := InMemoryUserRepository.save st.users user (some transaction)
        match commitTransaction tm1 transaction with
        | .error e =>
          (.error e "REGISTRATION_ERROR",
            ⟨users1, creds1, bestEffortRollback tm1 transaction⟩)
        | .ok tm2 =>
          (.success
            ⟨userId, command.email, command.name, user.profileImage,
              user.isActive, user.isVerified, user.role.toStr, user.plan.toStr⟩
            "User registered successfully",
            ⟨users1, creds1, tm2⟩)

end RegisterUserUseCase

/-! #### LoginUseCase -/

structure AuthenticateUserQuery where
  email : String
  password : String
  deriving DecidableEq, Repr

structure AuthenticateUserQueryResult where
  userId : String
  email : String
  token : String
  deriving DecidableEq, Repr

namespace LoginUseCase

open InMemoryTransactionManager

/-- `LoginUseCase.execute(query)`: falsy-input check, email then password
value-object construction (each with its own error code), then
authentication, token signing and commit inside one transaction.  `sign`
stands for the external `jwt.sign` (from user id and email). -/
def execute (st : SysState) (query : AuthenticateUserQuery)
    (transactionId : String) (now : Int) (sign : String → String → String) :
    AuthRes AuthenticateUserQueryResult × SysState :=
  if query.email = "" || query.password = "" then
    (.error "Email and password are required" "VALIDATION_ERROR", st)
  else
    match Email.create query.email with
    | .error msg => (.error msg "INVALID_EMAIL", st)
    | .ok email =>
    match Password.create query.password with
    | .error msg => (.error msg "INVALID_PASSWORD", st)
    | .ok _password =>
      let (tm1, transaction) := beginTransaction st.tm transactionId
      match AuthDomainService.authenticateUser st.creds email query.password
          now (some transaction) with
      | .error e =>
        (.error e.message "AUTHENTICATION_ERROR",
          ⟨st.users, st.creds, bestEffortRollback tm1 transaction⟩)
      | .ok (creds1, userCredentials) =>
        let tokenValue := sign userCredentials.userId userCredentials.email.getValue
        match JwtToken.create tokenValue with
        | .error e =>
          (.error e "AUTHENTICATION_ERROR",
            ⟨st.users, creds1, bestEffortRollback tm1 transaction⟩)
        | .ok token =>
          match commitTransaction tm1 transaction with
          | .error e =>
            (.error e "AUTHENTICATION_ERROR",
              ⟨st.users, creds1, bestEffortRollback tm1 transaction⟩)
          | .ok tm2 =>
            (.success
              ⟨userCredentials.userId, userCredentials.email.getValue, token.value⟩
              "Login successful",
              ⟨st.users, creds1, tm2⟩)

end LoginUseCase

/-! ## Claim theorems -/

section Claims

open InMemoryTransactionManager InMemoryUserCredentialsRepository
  InMemoryUserRepository AuthDomainService

/-- C1: `commitTransaction` on a transaction whose id is not registered in
the manager throws the transaction-not-found error; after a successful
`commitTransaction` on a handle returned by `beginTransaction`, a second
`commitTransaction` throws the already-completed error and so does
`rollbackTransaction`; more generally no transaction in a terminal
(committed or rolled-back) state ever transitions again. -/
theorem claim1_transaction_lifecycle :
    (∀ (s : TMState) (t : Tx), mapGet s.activeTransactions t.id = none →
      commitTransaction s t = .error (txNotFoundMsg t.id)) ∧
    (∀ (s : TMState) (txId : String) (s1 : TMState) (t : Tx) (s2 : TMState),
      beginTransaction s txId = (s1, t) →
      commitTransaction s1 t = .ok s2 →
      commitTransaction s2 t = .error (txAlreadyCompletedMsg t.id) ∧
      rollbackTransaction s2 t = .error (txAlreadyCompletedMsg t.id)) ∧
    (∀ (s : TMState) (t : Tx) (r : TxRecord),
      mapGet s.activeTransactions t.id = some r →
      r.isCommitted = true ∨ r.isRolledBack = true →
      (∀ s3, commitTransaction s t ≠ .ok s3) ∧
      (∀ s3, rollbackTransaction s t ≠ .ok s3)) := by
  refine ⟨?_, ?_, ?_⟩
  · intro s t h
    simp [commitTransaction, h]
  · intro s txId s1 t s2 hb hc
    have hs1 : s1 = ⟨mapSet s.activeTransactions txId ⟨false, false⟩⟩ := by
      simpa [beginTransaction] using (congrArg Prod.fst hb).symm
    have ht : t = ⟨txId⟩ := by
      simpa [beginTransaction] using (congrArg Prod.snd hb).symm
    subst hs1; subst ht
    have hget : mapGet (mapSet s.activeTransactions txId ⟨false, false⟩) txId
        = some ⟨false, false⟩ := mapGet_mapSet_self _ _ _
    have hs2 : s2 = ⟨mapSet (mapSet s.activeTransactions txId ⟨false, false⟩)
        txId ⟨true, false⟩⟩ := by
      simp [commitTransaction, hget] at hc
      exact hc.symm
    subst hs2
    have hget2 : mapGet (mapSet (mapSet s.activeTransactions txId ⟨false, false⟩)
        txId ⟨true, false⟩) txId = some ⟨true, false⟩ := mapGet_mapSet_self _ _ _
    constructor
    · simp [commitTransaction, hget2]
    · simp [rollbackTransaction, hget2]
  · intro s t r hget hterm
    have hb : (r.isCommitted || r.isRolledBack) = true := by
      rcases hterm with h | h <;> simp [h]
    constructor
    · intro s3
      simp [commitTransaction, hget, hb]
    · intro s3
      simp [rollbackTransaction, hget, hb]

/-- Witness for C1 at concrete inputs: an empty manager rejects an unknown
id, and a freshly begun and committed transaction rejects both a second
commit and a subsequent rollback. -/
theorem claim1_witness :
    beginTransaction ⟨[]⟩ "tx1" = (⟨[("tx1", ⟨false, false⟩)]⟩, ⟨"tx1"⟩) ∧
    commitTransaction ⟨[("tx1", ⟨false, false⟩)]⟩ ⟨"tx1"⟩
      = .ok ⟨[("tx1", ⟨true, false⟩)]⟩ ∧
    commitTransaction ⟨[]⟩ ⟨"tx0"⟩ = .error (txNotFoundMsg "tx0") ∧
    commitTransaction ⟨[("tx1", ⟨true, false⟩)]⟩ ⟨"tx1"⟩
      = .error (txAlreadyCompletedMsg "tx1") ∧
    rollbackTransaction ⟨[("tx1", ⟨true, false⟩)]⟩ ⟨"tx1"⟩
      = .error (txAlreadyCompletedMsg "tx1") := by
  have h1 := claim1_transaction_lifecycle.1 ⟨[]⟩ ⟨"tx0"⟩ (by decide)
  have h2 := claim1_transaction_lifecycle.2.1 ⟨[]⟩ "tx1"
    ⟨[("tx1", ⟨false, false⟩)]⟩ ⟨"tx1"⟩ ⟨[("tx1", ⟨true, false⟩)]⟩
    (by decide) (by decide)
  exact ⟨by decide, by decide, h1, h2.1, h2.2⟩

/-- C2: the in-memory repositories write straight through and ignore the
transaction handle, so a save inside an active transaction followed by a
successful rollback leaves the saved value in the store: `findById` still
returns it, and the store equals the one produced by a save with no
transaction at all; likewise for the credentials repository. -/
theorem claim2_rollback_does_not_undo_writes
    (users : UserStore) (creds : CredStore) (tm : TMState)
    (u : User) (c : UserCredentials) (t : Tx)
    (hactive : mapGet tm.activeTransactions t.id = some ⟨false, false⟩) :
    rollbackTransaction tm t
      = .ok ⟨mapSet tm.activeTransactions t.id ⟨false, true⟩⟩ ∧
    InMemoryUserRepository.save users u (some t)
      = InMemoryUserRepository.save users u none ∧
    findById (InMemoryUserRepository.save users u (some t)) u.id none = some u ∧
    InMemoryUserCredentialsRepository.save creds c (some t)
      = InMemoryUserCredentialsRepository.save creds c none ∧
    findByUserId (InMemoryUserCredentialsRepository.save creds c (some t)).1
      c.userId none = some c := by
  refine ⟨?_, rfl, ?_, rfl, ?_⟩
  · simp [rollbackTransaction, hactive]
  · simpa [InMemoryUserRepository.save, findById] using
      mapGet_mapSet_self users.users u.id u
  · simpa [InMemoryUserCredentialsRepository.save, findByUserId] using
      mapGet_mapSet_self creds.credentials c.userId c

/-- Witness for C2 at concrete inputs: one user and one credentials record
saved under an active transaction survive its rollback. -/
theorem claim2_witness :
    mapGet (⟨[("t1", ⟨false, false⟩)]⟩ : TMState).activeTransactions "t1"
      = some ⟨false, false⟩ ∧
    findById
      (InMemoryUserRepository.save ⟨[]⟩
        ⟨"u1", ⟨"a@b.com"⟩, ⟨"John Doe"⟩, 0, none, true, false, .USER, .STANDARD⟩
        (some ⟨"t1"⟩))
      "u1" none
      = some ⟨"u1", ⟨"a@b.com"⟩, ⟨"John Doe"⟩, 0, none, true, false, .USER, .STANDARD⟩ ∧
    rollbackTransaction ⟨[("t1", ⟨false, false⟩)]⟩ ⟨"t1"⟩
      = .ok ⟨[("t1", ⟨false, true⟩)]⟩ := by
  have h := claim2_rollback_does_not_undo_writes ⟨[]⟩ ⟨[], []⟩
    ⟨[("t1", ⟨false, false⟩)]⟩
    ⟨"u1", ⟨"a@b.com"⟩, ⟨"John Doe"⟩, 0, none, true, false, .USER, .STANDARD⟩
    ⟨⟨"a@b.com"⟩, ⟨"h", true⟩, "u1", true, none, 0, 0⟩
    ⟨"t1"⟩ (by decide)
  exact ⟨by decide, h.2.2.1, h.1⟩

/-- C3: `authenticateUser` throws the generic invalid-credentials error when
no record exists for the email, the user-inactive error when the record is
inactive, and the same invalid-credentials error (the identical `AuthError`
constructor, not a distinct wrong-password error) when the record is active
but the hash compare fails; on success it returns, and persists in the
store before returning, the record updated only in `lastLoginAt` and
`updatedAt`. -/
theorem claim3_authenticate_user :
    (∀ (st : CredStore) (e : Email) (p : String) (now : Int) (tx : Option Tx),
      findByEmail st e tx = none →
      authenticateUser st e p now tx = .error .loginInvalidCredentials) ∧
    (∀ (st : CredStore) (e : Email) (p : String) (now : Int) (tx : Option Tx)
      (uc : UserCredentials), findByEmail st e tx = some uc →
      uc.isActive = false →
      authenticateUser st e p now tx = .error .loginUserInactive) ∧
    (∀ (st : CredStore) (e : Email) (p : String) (now : Int) (tx : Option Tx)
      (uc : UserCredentials), findByEmail st e tx = some uc →
      uc.isActive = true → uc.password.compare p = false →
      authenticateUser st e p now tx = .error .loginInvalidCredentials) ∧
    (∀ (st : CredStore) (e : Email) (p : String) (now : Int) (tx : Option Tx)
      (uc : UserCredentials), findByEmail st e tx = some uc →
      uc.isActive = true → uc.password.compare p = true →
      authenticateUser st e p now tx =
        .ok ((InMemoryUserCredentialsRepository.save st (uc.updateLastLogin now) tx).1,
          uc.updateLastLogin now) ∧
      uc.updateLastLogin now =
        ⟨uc.email, uc.password, uc.userId, uc.isActive, some now, uc.createdAt, now⟩ ∧
      findByUserId
        (InMemoryUserCredentialsRepository.save st (uc.updateLastLogin now) tx).1
        uc.userId tx = some (uc.updateLastLogin now)) := by
  refine ⟨?_, ?_, ?_, ?_⟩
  · intro st e p now tx h
    simp [authenticateUser, h]
  · intro st e p now tx uc h hina
    simp [authenticateUser, h, UserCredentials.isUserActive, hina]
  · intro st e p now tx uc h hact hcmp
    simp [authenticateUser, h, UserCredentials.isUserActive, hact, hcmp]
  · intro st e p now tx uc h hact hcmp
    refine ⟨?_, rfl, ?_⟩
    · simp [authenticateUser, h, UserCredentials.isUserActive, hact, hcmp]
    · simpa [InMemoryUserCredentialsRepository.save, findByUserId,
        UserCredentials.updateLastLogin] using
        mapGet_mapSet_self st.credentials uc.userId (uc.updateLastLogin now)

/-- Witness for C3 at concrete inputs: a missing record, an inactive
record, a wrong password against an active record, and a successful
authentication that persists the refreshed record. -/
theorem claim3_witness :
    authenticateUser ⟨[], []⟩ ⟨"a@b.com"⟩ "Abcdefg1" 5 none
      = .error .loginInvalidCredentials ∧
    authenticateUser
      ⟨[("u1", ⟨⟨"a@b.com"⟩, ⟨"bcrypt.12.Abcdefg1", true⟩, "u1", false, none, 0, 0⟩)],
        [("a@b.com", "u1")]⟩ ⟨"a@b.com"⟩ "Abcdefg1" 5 none
      = .error .loginUserInactive ∧
    authenticateUser
      ⟨[("u1", ⟨⟨"a@b.com"⟩, ⟨"bcrypt.12.Abcdefg1", true⟩, "u1", true, none, 0, 0⟩)],
        [("a@b.com", "u1")]⟩ ⟨"a@b.com"⟩ "Xbcdefg1" 5 none
      = .error .loginInvalidCredentials ∧
    authenticateUser
      ⟨[("u1", ⟨⟨"a@b.com"⟩, ⟨"bcrypt.12.Abcdefg1", true⟩, "u1", true, none, 0, 0⟩)],
        [("a@b.com", "u1")]⟩ ⟨"a@b.com"⟩ "Abcdefg1" 5 none
      = .ok (⟨[("u1", ⟨⟨"a@b.com"⟩, ⟨"bcrypt.12.Abcdefg1", true⟩, "u1", true, some 5, 0, 5⟩)],
          [("a@b.com", "u1")]⟩,
        ⟨⟨"a@b.com"⟩, ⟨"bcrypt.12.Abcdefg1", true⟩, "u1", true, some 5, 0, 5⟩) := by
  refine ⟨claim3_authenticate_user.1 ⟨[], []⟩ ⟨"a@b.com"⟩ "Abcdefg1" 5 none (by decide),
    claim3_authenticate_user.2.1 _ ⟨"a@b.com"⟩ "Abcdefg1" 5 none
      ⟨⟨"a@b.com"⟩, ⟨"bcrypt.12.Abcdefg1", true⟩, "u1", false, none, 0, 0⟩
      (by decide) (by decide),
    claim3_authenticate_user.2.2.1 _ ⟨"a@b.com"⟩ "Xbcdefg1" 5 none
      ⟨⟨"a@b.com"⟩, ⟨"bcrypt.12.Abcdefg1", true⟩, "u1", true, none, 0, 0⟩
      (by decide) (by decide) (by decide),
    ?_⟩
  have h := (claim3_authenticate_user.2.2.2
    ⟨[("u1", ⟨⟨"a@b.com"⟩, ⟨"bcrypt.12.Abcdefg1", true⟩, "u1", true, none, 0, 0⟩)],
      [("a@b.com", "u1")]⟩ ⟨"a@b.com"⟩ "Abcdefg1" 5 none
    ⟨⟨"a@b.com"⟩, ⟨"bcrypt.12.Abcdefg1", true⟩, "u1", true, none, 0, 0⟩
    (by decide) (by decide) (by decide)).1
  exact h

/-- C4: `changePassword` with a current password whose hash compare fails
throws the invalid-current-password error and produces no new store (the
error branch performs no repository write), so authenticating against the
unchanged store with the old password still succeeds. -/
theorem claim4_change_password_wrong_current
    (st : CredStore) (uid : String) (uc : UserCredentials)
    (wrongCurrent oldPlain : String) (newPw : Password) (now : Int) (tx : Option Tx)
    (hfind : findByUserId st uid tx = some uc)
    (hwrong : uc.password.compare wrongCurrent = false)
    (hbyEmail : findByEmail st uc.email tx = some uc)
    (hactive : uc.isActive = true)
    (hold : uc.password.compare oldPlain = true) :
    changePassword st uid wrongCurrent newPw now tx
      = .error .changePasswordInvalidCurrent ∧
    (∀ pr, changePassword st uid wrongCurrent newPw now tx ≠ .ok pr) ∧
    authenticateUser st uc.email oldPlain now tx =
      .ok ((InMemoryUserCredentialsRepository.save st (uc.updateLastLogin now) tx).1,
        uc.updateLastLogin now) := by
  have herr : changePassword st uid wrongCurrent newPw now tx
      = .error .changePasswordInvalidCurrent := by
    simp [changePassword, hfind, hwrong]
  refine ⟨herr, ?_, ?_⟩
  · intro pr hok
    rw [herr] at hok
    exact Except.noConfusion hok
  · simp [authenticateUser, hbyEmail, UserCredentials.isUserActive, hactive, hold]

/-- Witness for C4 at concrete inputs: a wrong current password is
rejected, and the old password still authenticates against the same
store. -/
theorem claim4_witness :
    changePassword
      ⟨[("u1", ⟨⟨"a@b.com"⟩, ⟨"bcrypt.12.Oldpass1", true⟩, "u1", true, none, 0, 0⟩)],
        [("a@b.com", "u1")]⟩ "u1" "Wrongpass1" ⟨"bcrypt.12.Newpass1", true⟩ 7 none
      = .error .changePasswordInvalidCurrent ∧
    authenticateUser
      ⟨[("u1", ⟨⟨"a@b.com"⟩, ⟨"bcrypt.12.Oldpass1", true⟩, "u1", true, none, 0, 0⟩)],
        [("a@b.com", "u1")]⟩ ⟨"a@b.com"⟩ "Oldpass1" 7 none
      = .ok (⟨[("u1", ⟨⟨"a@b.com"⟩, ⟨"bcrypt.12.Oldpass1", true⟩, "u1", true, some 7, 0, 7⟩)],
          [("a@b.com", "u1")]⟩,
        ⟨⟨"a@b.com"⟩, ⟨"bcrypt.12.Oldpass1", true⟩, "u1", true, some 7, 0, 7⟩) := by
  have h := claim4_change_password_wrong_current
    ⟨[("u1", ⟨⟨"a@b.com"⟩, ⟨"bcrypt.12.Oldpass1", true⟩, "u1", true, none, 0, 0⟩)],
      [("a@b.com", "u1")]⟩ "u1"
    ⟨⟨"a@b.com"⟩, ⟨"bcrypt.12.Oldpass1", true⟩, "u1", true, none, 0, 0⟩
    "Wrongpass1" "Oldpass1" ⟨"bcrypt.12.Newpass1", true⟩ 7 none
    (by decide) (by decide) (by decide) (by decide) (by decide)
  exact ⟨h.1, h.2.2⟩

/-- C5 counterexample: at `createdAt = now - 24h` exactly, `now - createdAt`
is at least 24 hours, yet `canBeDeleted` returns `false` — the code uses a
strict comparison, so the claimed "true iff `now - createdAt ≥ 24h`" fails
at the boundary. -/
theorem claim5_counterexample :
    (86400000 : Int) -
      (⟨"u1", ⟨"a@b.com"⟩, ⟨"Jo"⟩, 0, none, true, true, .USER, .STANDARD⟩ : User).createdAt
      ≥ 24 * 60 * 60 * 1000 ∧
    (⟨"u1", ⟨"a@b.com"⟩, ⟨"Jo"⟩, 0, none, true, true, .USER, .STANDARD⟩ : User).canBeDeleted
      86400000 = false := by
  constructor
  · decide
  · decide

/-- C5 (amended): `canBeDeleted()` returns true iff `now - createdAt` is
strictly greater than 24 hours; in particular `createdAt = now - 24h - 1ms`
yields true and `createdAt = now - 24h + 1ms` yields false. -/
theorem claim5_can_be_deleted_strict (u : User) (now : Int) :
    (u.canBeDeleted now = true ↔ now - u.createdAt > 24 * 60 * 60 * 1000) ∧
    (u.createdAt = now - (24 * 60 * 60 * 1000) - 1 → u.canBeDeleted now = true) ∧
    (u.createdAt = now - (24 * 60 * 60 * 1000) + 1 → u.canBeDeleted now = false) := by
  refine ⟨?_, ?_, ?_⟩
  · simp only [User.canBeDeleted, decide_eq_true_eq]
    omega
  · intro h
    simp only [User.canBeDeleted, h, decide_eq_true_eq]
    omega
  · intro h
    simp only [User.canBeDeleted, h, decide_eq_false_iff_not]
    omega

/-- Witness for C5 (amended) at concrete inputs: both boundary cases one
millisecond on either side of the 24-hour cutoff. -/
theorem claim5_witness :
    ((-1 : Int) = 86400000 - 24 * 60 * 60 * 1000 - 1 ∧
      (⟨"u1", ⟨"a@b.com"⟩, ⟨"Jo"⟩, -1, none, true, true, .USER, .STANDARD⟩ : User).canBeDeleted
        86400000 = true) ∧
    ((1 : Int) = 86400000 - 24 * 60 * 60 * 1000 + 1 ∧
      (⟨"u1", ⟨"a@b.com"⟩, ⟨"Jo"⟩, 1, none, true, true, .USER, .STANDARD⟩ : User).canBeDeleted
        86400000 = false) := by
  constructor
  · exact ⟨by decide,
      (claim5_can_be_deleted_strict
        ⟨"u1", ⟨"a@b.com"⟩, ⟨"Jo"⟩, -1, none, true, true, .USER, .STANDARD⟩
        86400000).2.1 (by decide)⟩
  · exact ⟨by decide,
      (claim5_can_be_deleted_strict
        ⟨"u1", ⟨"a@b.com"⟩, ⟨"Jo"⟩, 1, none, true, true, .USER, .STANDARD⟩
        86400000).2.2 (by decide)⟩

/-- C6: registering with a valid email, a policy-satisfying password and a
valid name, supplying no role, plan or profile image, and an email not yet
registered, succeeds with result data `role = "USER"`, `plan = "STANDARD"`,
`isActive = true`, `isVerified = false`, `profileImage = null`, and the
persisted `User` entity carries the same defaults. -/
theorem claim6_register_defaults
    (st : SysState) (command : RegisterUserCommand)
    (userId transactionId : String) (now : Int)
    (email : Email) (password : Password) (name : UserName)
    (hemail_ne : ¬command.email = "") (hpw_ne : ¬command.password = "")
    (hname_ne : ¬command.name = "")
    (he : Email.create command.email = .ok email)
    (hp : Password.create command.password = .ok password)
    (hn : UserName.create command.name = .ok name)
    (hrole : command.role = none) (hplan : command.plan = none)
    (himg : command.profileImage = none)
    (hfresh : findByEmail st.creds email (some ⟨transactionId⟩) = none) :
    (RegisterUserUseCase.execute st command userId transactionId now).1 =
      .success
        ⟨userId, command.email, command.name, none, true, false, "USER", "STANDARD"⟩
        "User registered successfully" ∧
    findById (RegisterUserUseCase.execute st command userId transactionId now).2.users
      userId none
      = some ⟨userId, email, name, now, none, true, false, .USER, .STANDARD⟩ := by
  have hmain : RegisterUserUseCase.execute st command userId transactionId now =
      (.success
        ⟨userId, command.email, command.name, none, true, false, "USER", "STANDARD"⟩
        "User registered successfully",
       ⟨⟨mapSet st.users.users userId
            ⟨userId, email, name, now, none, true, false, .USER, .STANDARD⟩⟩,
        (InMemoryUserCredentialsRepository.save st.creds
          (UserCredentials.create email password userId now) (some ⟨transactionId⟩)).1,
        ⟨mapSet (mapSet st.tm.activeTransactions transactionId ⟨false, false⟩)
          transactionId ⟨true, false⟩⟩⟩) := by
    simp only [RegisterUserUseCase.execute, hemail_ne, hpw_ne, hname_ne,
      decide_eq_true_eq, he, hp, hn, hrole, hplan, himg,
      RegisterUserUseCase.roleFromCommand, RegisterUserUseCase.planFromCommand,
      beginTransaction, registerUser, hfresh,
      commitTransaction, mapGet_mapSet_self, Bool.or_false]
    simp [RegisterUserUseCase.buildUser, InMemoryUserRepository.save,
      UserRoleEnum.toStr, UserPlanEnum.toStr]
  rw [hmain]
  refine ⟨rfl, ?_⟩
  simpa [findById] using
    mapGet_mapSet_self st.users.users userId
      ⟨userId, email, name, now, none, true, false, .USER, .STANDARD⟩

/-- Witness for C6 at concrete inputs: end-to-end scenario 1
(`a@b.com` / `Abcdefg1` / `John Doe`) against the empty system state. -/
theorem claim6_witness :
    (RegisterUserUseCase.execute ⟨⟨[]⟩, ⟨[], []⟩, ⟨[]⟩⟩
        ⟨"a@b.com", "Abcdefg1", "John Doe", none, none, none⟩ "u1" "t1" 0).1 =
      .success ⟨"u1", "a@b.com", "John Doe", none, true, false, "USER", "STANDARD"⟩
        "User registered successfully" ∧
    findById
      (RegisterUserUseCase.execute ⟨⟨[]⟩, ⟨[], []⟩, ⟨[]⟩⟩
        ⟨"a@b.com", "Abcdefg1", "John Doe", none, none, none⟩ "u1" "t1" 0).2.users
      "u1" none
      = some ⟨"u1", ⟨"a@b.com"⟩, ⟨"John Doe"⟩, 0, none, true, false, .USER, .STANDARD⟩ := by
  exact claim6_register_defaults ⟨⟨[]⟩, ⟨[], []⟩, ⟨[]⟩⟩
    ⟨"a@b.com", "Abcdefg1", "John Doe", none, none, none⟩ "u1" "t1" 0
    ⟨"a@b.com"⟩ ⟨"bcrypt.12.Abcdefg1", true⟩ ⟨"John Doe"⟩
    (by decide) (by decide) (by decide) (by decide) (by decide) (by decide)
    rfl rfl rfl (by decide)

/-- C7: for a password created from a policy-satisfying plaintext, `compare`
accepts exactly the original plaintext (under the ideal injective model of
bcrypt) and rejects every other plaintext; the stored value is the hash of
the plaintext, and `compare` is a function of the stored hash alone — it
never re-hashes the stored password. -/
theorem claim7_password_roundtrip (p : String) (pw : Password)
    (h : Password.create p = .ok pw) :
    pw.compare p = true ∧
    (∀ wrong, wrong ≠ p → pw.compare wrong = false) ∧
    pw.hashedValue = bcryptHashSync p 12 ∧
    (∀ (q : Password) (w : String), q.hashedValue = pw.hashedValue →
      q.compare w = pw.compare w) := by
  have hpw : pw = ⟨bcryptHashSync p 12, true⟩ := by
    unfold Password.create at h
    split_ifs at h
    simp_all
  subst hpw
  refine ⟨?_, ?_, rfl, ?_⟩
  · simp [Password.compare, bcryptCompareSync_hash]
  · intro wrong hne
    have hcmp := bcryptCompareSync_hash p wrong
    simp only [Password.compare]
    rw [hcmp]
    exact beq_eq_false_iff_ne.mpr fun hc => hne hc.symm
  · intro q w hq
    simp [Password.compare, hq]

/-- Witness for C7 at a concrete input: `Abcdefg1` round-trips and a
one-character variation is rejected. -/
theorem claim7_witness :
    Password.create "Abcdefg1" = .ok ⟨"bcrypt.12.Abcdefg1", true⟩ ∧
    (Password.mk "bcrypt.12.Abcdefg1" true).compare "Abcdefg1" = true ∧
    (Password.mk "bcrypt.12.Abcdefg1" true).compare "Xbcdefg1" = false := by
  have h := claim7_password_roundtrip "Abcdefg1" ⟨"bcrypt.12.Abcdefg1", true⟩ (by decide)
  exact ⟨by decide, h.1, h.2.1 "Xbcdefg1" (by decide)⟩

/-- C8 counterexample: the string `"a "` has length 2, matches the name
regex and contains no double space, yet the `UserName` constructor throws
the too-short error — the length rules are checked against the trimmed
value, not the raw input. -/
theorem claim8_counterexample :
    "a ".length = 2 ∧
    "a ".toList.all UserName.nameCharOk = true ∧
    UserName.hasConsecutiveSpaces "a ".toList = false ∧
    UserName.validate "a " = .error "User name must be at least 2 characters long" := by
  refine ⟨by decide, by decide, by decide, by decide⟩

/-- C8 (amended): for every string whose **trimmed** value is nonempty, has
length in [2,50], consists only of characters in the class
`[a-zA-ZÀ-ÿ\s\-']`, and contains no double-space substring, the `UserName`
constructor succeeds and `getValue()` returns the input trimmed; every input
violating one of the rules (empty, too short, too long, invalid character,
consecutive spaces — all but emptiness judged on the trimmed value) throws
the message of the first rule it violates. -/
theorem claim8_username_validation (n : String) :
    (¬(n = "" ∨ (jsTrim n).length = 0) → 2 ≤ (jsTrim n).length →
      (jsTrim n).length ≤ 50 → (jsTrim n).toList.all UserName.nameCharOk = true →
      UserName.hasConsecutiveSpaces (jsTrim n).toList = false →
      UserName.create n = .ok ⟨n⟩ ∧ UserName.getValue ⟨n⟩ = jsTrim n) ∧
    ((n = "" ∨ (jsTrim n).length = 0) →
      UserName.validate n = .error "User name cannot be empty") ∧
    (¬(n = "" ∨ (jsTrim n).length = 0) → (jsTrim n).length < 2 →
      UserName.validate n = .error "User name must be at least 2 characters long") ∧
    (¬(n = "" ∨ (jsTrim n).length = 0) → (jsTrim n).length > 50 →
      UserName.validate n = .error "User name cannot be longer than 50 characters") ∧
    (¬(n = "" ∨ (jsTrim n).length = 0) → 2 ≤ (jsTrim n).length →
      (jsTrim n).length ≤ 50 → (jsTrim n).toList.all UserName.nameCharOk = false →
      UserName.validate n
        = .error "User name can only contain letters, spaces, hyphens, and apostrophes") ∧
    (¬(n = "" ∨ (jsTrim n).length = 0) → 2 ≤ (jsTrim n).length →
      (jsTrim n).length ≤ 50 → (jsTrim n).toList.all UserName.nameCharOk = true →
      UserName.hasConsecutiveSpaces (jsTrim n).toList = true →
      UserName.validate n = .error "User name cannot contain consecutive spaces") := by
  have hlen : (jsTrim n).toList.length = (jsTrim n).length := rfl
  refine ⟨?_, ?_, ?_, ?_, ?_, ?_⟩
  · intro hne h2 h50 hchars hdbl
    have hnonempty : (jsTrim n).toList.isEmpty = false := by
      cases hl : (jsTrim n).toList with
      | nil => rw [hl] at hlen; simp at hlen; omega
      | cons a l => simp
    have hall : ∀ x ∈ (jsTrim n).data, UserName.nameCharOk x = true := by
      simpa [String.toList, List.all_eq_true] using hchars
    have hnodata : ¬(jsTrim n).data = [] := by
      simpa [String.toList] using hnonempty
    have hc4 : ¬((!((jsTrim n).toList.all UserName.nameCharOk
        && !(jsTrim n).toList.isEmpty)) = true) := by
      simp
      exact ⟨hall, hnodata⟩
    have hc5 : ¬(UserName.hasConsecutiveSpaces (jsTrim n).toList = true) := by
      simp
      exact hdbl
    constructor
    · unfold UserName.create UserName.validate
      rw [if_neg hne, if_neg (by omega : ¬(jsTrim n).length < 2),
        if_neg (by omega : ¬(jsTrim n).length > 50), if_neg hc4, if_neg hc5]
      rfl
    · rfl
  · intro h
    simp [UserName.validate, h]
  · intro hne hlt
    simp [UserName.validate, hne, hlt]
  · intro hne hgt
    simp [UserName.validate, hne, Nat.not_lt.mpr (by omega : 2 ≤ (jsTrim n).length), hgt]
  · intro hne h2 h50 hchars
    have hc4 : (!((jsTrim n).toList.all UserName.nameCharOk
        && !(jsTrim n).toList.isEmpty)) = true := by
      simp
      exact Or.inl (by simpa [String.toList, List.all_eq_false] using hchars)
    unfold UserName.validate
    rw [if_neg hne, if_neg (by omega : ¬(jsTrim n).length < 2),
      if_neg (by omega : ¬(jsTrim n).length > 50), if_pos hc4]
  · intro hne h2 h50 hchars hdbl
    have hnonempty : (jsTrim n).toList.isEmpty = false := by
      cases hl : (jsTrim n).toList with
      | nil => rw [hl] at hlen; simp at hlen; omega
      | cons a l => simp
    have hall : ∀ x ∈ (jsTrim n).data, UserName.nameCharOk x = true := by
      simpa [String.toList, List.all_eq_true] using hchars
    have hnodata : ¬(jsTrim n).data = [] := by
      simpa [String.toList] using hnonempty
    have hc4 : ¬((!((jsTrim n).toList.all UserName.nameCharOk
        && !(jsTrim n).toList.isEmpty)) = true) := by
      simp
      exact ⟨hall, hnodata⟩
    unfold UserName.validate
    rw [if_neg hne, if_neg (by omega : ¬(jsTrim n).length < 2),
      if_neg (by omega : ¬(jsTrim n).length > 50), if_neg hc4, if_pos hdbl]

/-- Witness for C8 (amended) at concrete inputs: `John Doe` is accepted and
trimmed, the empty string and a one-letter name are rejected with their
rule-specific messages. -/
theorem claim8_witness :
    UserName.create " John Doe " = .ok ⟨" John Doe "⟩ ∧
    UserName.getValue ⟨" John Doe "⟩ = "John Doe" ∧
    UserName.validate "" = .error "User name cannot be empty" ∧
    UserName.validate " a " = .error "User name must be at least 2 characters long" := by
  have h1 := (claim8_username_validation " John Doe ").1
    (by decide) (by decide) (by decide) (by decide) (by decide)
  have h2 := (claim8_username_validation "").2.1 (by decide)
  have h3 := (claim8_username_validation " a ").2.2.1 (by decide) (by decide)
  exact ⟨h1.1, h1.2, h2, h3⟩

/-- C9 counterexample: the empty password fails the password-creation
policy (it is shorter than 8 characters), yet `LoginUseCase.execute`
returns error code `VALIDATION_ERROR` — the falsy-input guard fires before
the password value object is built, so the claimed `INVALID_PASSWORD` code
is not produced for every policy-violating password. -/
theorem claim9_counterexample :
    Password.create "" = .error "Password cannot be empty" ∧
    (LoginUseCase.execute ⟨⟨[]⟩, ⟨[], []⟩, ⟨[]⟩⟩ ⟨"a@b.com", ""⟩ "t1" 0
      fun _ _ => "h.p.s").1
      = .error "Email and password are required" "VALIDATION_ERROR" := by
  exact ⟨by decide, by decide⟩

/-- C9 (amended): for every login query whose email is nonempty and
well-formed and whose password is nonempty but fails the password-creation
policy, `execute` returns `{success: false, errorCode: "INVALID_PASSWORD"}`
with the policy violation message and leaves the system state unchanged —
no credentials lookup and no `lastLoginAt` persistence, whatever the store
contains (an empty password instead hits the falsy-input guard and yields
`VALIDATION_ERROR`, and a malformed email yields `INVALID_EMAIL`). -/
theorem claim9_login_invalid_password
    (st : SysState) (query : AuthenticateUserQuery) (transactionId : String)
    (now : Int) (sign : String → String → String)
    (em : Email) (msg : String)
    (hene : ¬query.email = "") (hpne : ¬query.password = "")
    (hemail : Email.create query.email = .ok em)
    (hpw : Password.create query.password = .error msg) :
    LoginUseCase.execute st query transactionId now sign
      = (.error msg "INVALID_PASSWORD", st) := by
  simp [LoginUseCase.execute, hene, hpne, hemail, hpw]

/-- Witness for C9 (amended) at concrete inputs: the store even contains
active credentials whose stored hash matches the very password supplied
(`Short1`), yet the use case rejects it without touching the state. -/
theorem claim9_witness :
    Password.create "Short1" = .error "Password must be at least 8 characters long" ∧
    (⟨⟨"a@b.com"⟩, ⟨"bcrypt.12.Short1", true⟩, "u1", true, none, 0, 0⟩ :
        UserCredentials).password.compare "Short1" = true ∧
    LoginUseCase.execute
      ⟨⟨[]⟩,
        ⟨[("u1", ⟨⟨"a@b.com"⟩, ⟨"bcrypt.12.Short1", true⟩, "u1", true, none, 0, 0⟩)],
          [("a@b.com", "u1")]⟩, ⟨[]⟩⟩
      ⟨"a@b.com", "Short1"⟩ "t1" 0 (fun _ _ => "h.p.s")
      = (.error "Password must be at least 8 characters long" "INVALID_PASSWORD",
        ⟨⟨[]⟩,
          ⟨[("u1", ⟨⟨"a@b.com"⟩, ⟨"bcrypt.12.Short1", true⟩, "u1", true, none, 0, 0⟩)],
            [("a@b.com", "u1")]⟩, ⟨[]⟩⟩) := by
  refine ⟨by decide, by decide, ?_⟩
  exact claim9_login_invalid_password
    ⟨⟨[]⟩,
      ⟨[("u1", ⟨⟨"a@b.com"⟩, ⟨"bcrypt.12.Short1", true⟩, "u1", true, none, 0, 0⟩)],
        [("a@b.com", "u1")]⟩, ⟨[]⟩⟩
    ⟨"a@b.com", "Short1"⟩ "t1" 0 (fun _ _ => "h.p.s")
    ⟨"a@b.com"⟩ "Password must be at least 8 characters long"
    (by decide) (by decide) (by decide) (by decide)

/-- C10: `UserDomainService.createUser` persists a `User` built with the
constructor defaults — `profileImage = null`, `isActive = true`,
`isVerified = true`, `role = USER`, `plan = STANDARD` — notably
`isVerified = true`, whereas the registration use case constructs its user
with `isVerified = false` passed explicitly. -/
theorem claim10_create_user_defaults
    (st : UserStore) (email : Email) (name : UserName) (newId : String) (now : Int)
    (hfresh : InMemoryUserRepository.findByEmail st email none = none) :
    UserDomainService.createUser st email name newId now =
      .ok (InMemoryUserRepository.save st (User.mkDefault newId email name now) none,
        User.mkDefault newId email name now) ∧
    User.mkDefault newId email name now
      = ⟨newId, email, name, now, none, true, true, .USER, .STANDARD⟩ ∧
    findById (InMemoryUserRepository.save st (User.mkDefault newId email name now) none)
      newId none = some (User.mkDefault newId email name now) ∧
    (∀ (uid : String) (e : Email) (nm : UserName) (t : Int) (img : Option String)
      (r : UserRoleEnum) (pl : UserPlanEnum),
      (RegisterUserUseCase.buildUser uid e nm t img r pl).isVerified = false ∧
      (User.mkDefault uid e nm t).isVerified = true) := by
  refine ⟨?_, rfl, ?_, ?_⟩
  · simp [UserDomainService.createUser, hfresh]
  · simpa [InMemoryUserRepository.save, findById, User.mkDefault] using
      mapGet_mapSet_self st.users newId (User.mkDefault newId email name now)
  · intro uid e nm t img r pl
    exact ⟨rfl, rfl⟩

/-- Witness for C10 at concrete inputs: creating a user through the domain
service on an empty store yields the constructor defaults, including
`isVerified = true`. -/
theorem claim10_witness :
    UserDomainService.createUser ⟨[]⟩ ⟨"a@b.com"⟩ ⟨"John Doe"⟩ "u1" 0 =
      .ok (⟨[("u1", ⟨"u1", ⟨"a@b.com"⟩, ⟨"John Doe"⟩, 0, none, true, true, .USER, .STANDARD⟩)]⟩,
        ⟨"u1", ⟨"a@b.com"⟩, ⟨"John Doe"⟩, 0, none, true, true, .USER, .STANDARD⟩) ∧
    (RegisterUserUseCase.buildUser "u1" ⟨"a@b.com"⟩ ⟨"John Doe"⟩ 0 none
      .USER .STANDARD).isVerified = false := by
  have h := claim10_create_user_defaults ⟨[]⟩ ⟨"a@b.com"⟩ ⟨"John Doe"⟩ "u1" 0 (by decide)
  refine ⟨?_, (h.2.2.2 "u1" ⟨"a@b.com"⟩ ⟨"John Doe"⟩ 0 none .USER .STANDARD).1⟩
  have h1 := h.1
  simpa [InMemoryUserRepository.save, User.mkDefault, mapSet] using h1

end Claims

end Linky
